import Mathlib

/-!
Shallow embedding of the inventory-service repository (Go / Gin / GORM):
the query builder (sorting and filter application), the pagination engine,
the item update handler, and the two rate-limiting middlewares.  Each
definition mirrors one Go function; the Go source file is named in its
doc comment.  Machine integers (Go int, int64) are modelled as Int;
float64 appears only as a value that is copied or as the argument of
math.Ceil, modelled exactly over the integers and the rationals.
-/

namespace InventoryService

/-- The query string of an HTTP request, as key/value pairs (the gin
context query parameters).  A key that is present with an empty value is
distinct from an absent key, as in gin. -/
abbrev Request := List (String × String)

/-- Models gin Context.DefaultQuery: the value of the parameter, or the
default when the key is absent. -/
def ctxDefaultQuery (req : Request) (key dflt : String) : String :=
  (List.lookup key req).getD dflt

/-- Models gin Context.Query: the value of the parameter, or the empty
string when the key is absent. -/
def ctxQuery (req : Request) (key : String) : String :=
  ctxDefaultQuery req key ""

/-- SortConfig from src/src/utils/query_builder.go.  The Go field
AllowedFields is a map from string to bool used only for membership, so
it is modelled as the list of field names mapped to true. -/
structure SortConfig where
  allowedFields : List String
  defaultField : String
  defaultOrder : String
deriving DecidableEq

/-- ApplySorting from src/src/utils/query_builder.go: read sort_by and
order with the configured defaults, replace a sort_by outside
AllowedFields by DefaultField and an order other than asc or desc by
DefaultOrder, then append the single clause to the order clauses of the
query (gorm Order appends one clause). -/
def ApplySorting (config : SortConfig) (req : Request) (orders : List String) : List String :=
  let sortBy := ctxDefaultQuery req "sort_by" config.defaultField
  let order := ctxDefaultQuery req "order" config.defaultOrder
  let sortBy := if !(config.allowedFields.contains sortBy) then config.defaultField else sortBy
  let order := if order ≠ "asc" ∧ order ≠ "desc" then config.defaultOrder else order
  orders ++ [sortBy ++ " " ++ order]

/-- FilterConfig from src/src/utils/query_builder.go. -/
structure FilterConfig where
  queryParam : String
  dbColumn : String
  operator : String
deriving DecidableEq

/-- One WHERE condition emitted by ApplyFilter, as an abstract syntax
tree of the SQL fragments built in src/src/utils/query_builder.go:
like col v   is  col LIKE the value v wrapped in percent wildcards,
ilike col v  is  LOWER(col) LIKE the value v wrapped in percent
wildcards (note: the source lowercases only the column, not the value),
and the comparison conditions are col OP v. -/
inductive Cond where
  | like (col v : String)
  | ilike (col v : String)
  | ge (col v : String)
  | le (col v : String)
  | gt (col v : String)
  | lt (col v : String)
  | eq (col v : String)
deriving DecidableEq

/-- ApplyFilter from src/src/utils/query_builder.go: read the configured
request parameter; when it is empty (gin returns the empty string both
for an absent key and for a present empty value) add no condition,
otherwise append the condition selected by the operator switch; the
default branch of the switch is equality. -/
def ApplyFilter (config : FilterConfig) (req : Request) (conds : List Cond) : List Cond :=
  let value := ctxQuery req config.queryParam
  if value = "" then conds
  else
    match config.operator with
    | "LIKE" => conds ++ [Cond.like config.dbColumn value]
    | "ILIKE" => conds ++ [Cond.ilike config.dbColumn value]
    | ">=" => conds ++ [Cond.ge config.dbColumn value]
    | "<=" => conds ++ [Cond.le config.dbColumn value]
    | ">" => conds ++ [Cond.gt config.dbColumn value]
    | "<" => conds ++ [Cond.lt config.dbColumn value]
    | _ => conds ++ [Cond.eq config.dbColumn value]

/-- ApplyFilters from src/src/utils/query_builder.go: apply the filter
configurations in order. -/
def ApplyFilters (configs : List FilterConfig) (req : Request) (conds : List Cond) : List Cond :=
  configs.foldl (fun cs config => ApplyFilter config req cs) conds

/-- The filter configurations passed by GetItems in
src/src/controllers/item_controller.go. -/
def getItemsFilterConfigs : List FilterConfig :=
  [{ queryParam := "name", dbColumn := "name", operator := "ILIKE" },
   { queryParam := "min_stock", dbColumn := "stock", operator := ">=" }]

/-- The WHERE conditions of the GET /inventory query for a given
request: GetItems starts from the unfiltered Item query and applies the
two configured filters. -/
def GetItemsConds (req : Request) : List Cond :=
  ApplyFilters getItemsFilterConfigs req []

/-- A database row restricted to what the filter conditions inspect:
the text rendering of each named column. -/
abbrev Row := String → String

/-- Boolean substring test: pat occurs contiguously in s.  Models the
SQL match of a LIKE pattern that wraps a value containing no wildcard
metacharacters in percent signs. -/
def containsSub (s pat : String) : Bool :=
  (List.range (s.data.length + 1)).any (fun i => pat.data.isPrefixOf (s.data.drop i))

/-- Models the SQL LOWER function on the column text. -/
def sqlLower (s : String) : String :=
  String.mk (s.data.map Char.toLower)

/-- Evaluation of one condition at a row.  cmp is an oracle for the
ordering the store uses on the two comparison operands (the spec leaves
comparison to the type coercion of the store); the LIKE and LOWER
fragments are given their SQL meaning for pattern values without
wildcard metacharacters. -/
def evalCond (cmp : String → String → Ordering) (row : Row) : Cond → Bool
  | Cond.like col v => containsSub (row col) v
  | Cond.ilike col v => containsSub (sqlLower (row col)) v
  | Cond.ge col v => cmp (row col) v != Ordering.lt
  | Cond.le col v => cmp (row col) v != Ordering.gt
  | Cond.gt col v => cmp (row col) v == Ordering.gt
  | Cond.lt col v => cmp (row col) v == Ordering.lt
  | Cond.eq col v => cmp (row col) v == Ordering.eq

/-- The rows a conjunction of WHERE conditions keeps (SQL combines the
conditions added by successive gorm Where calls with AND). -/
def resultSet (cmp : String → String → Ordering) (rows : List Row) (conds : List Cond) : List Row :=
  rows.filter (fun r => conds.all (evalCond cmp r))

/-- Stated from the words of the spec, for comparison with the condition
the source emits: a case-insensitive substring match is containment
after lowering the case of both the column value and the parameter
value. -/
def specCaseInsensitiveContains (colVal v : String) : Bool :=
  containsSub (sqlLower colVal) (sqlLower v)

/-- The numeric value of a decimal digit character. -/
def digitVal (c : Char) : Option Nat :=
  if 48 ≤ c.toNat ∧ c.toNat ≤ 57 then some (c.toNat - 48) else none

/-- The value of a non-empty all-digit character list, most significant
digit first; none when the list is empty or holds a non-digit. -/
def digitsVal : List Char → Nat → Option Nat
  | [], acc => some acc
  | c :: cs, acc =>
    match digitVal c with
    | some d => digitsVal cs (acc * 10 + d)
    | none => none

def parseDigits (cs : List Char) : Option Nat :=
  match cs with
  | [] => none
  | _ => digitsVal cs 0

/-- Models Go strconv.Atoi as used with its error ignored: the value of
an optional sign followed by digits, and 0 when the string does not have
that shape (Atoi returns 0 with an error then).  On 64-bit overflow Go
returns the clamped extreme instead; the difference is invisible to the
bounds proved here because every out-of-range magnitude is clamped by
the callers. -/
def goAtoi (s : String) : Int :=
  match s.data with
  | [] => 0
  | c :: rest =>
    if c = '-' then
      match parseDigits rest with
      | some n => -(n : Int)
      | none => 0
    else if c = '+' then
      match parseDigits rest with
      | some n => (n : Int)
      | none => 0
    else
      match parseDigits (c :: rest) with
      | some n => (n : Int)
      | none => 0

/-- PaginationParams from src/src/utils/query_builder.go (Go int fields
modelled as Int). -/
structure PaginationParams where
  page : Int
  pageSize : Int
  offset : Int
deriving DecidableEq

/-- PaginationMeta from src/src/utils/query_builder.go. -/
structure PaginationMeta where
  currentPage : Int
  pageSize : Int
  totalPages : Int
  totalRecords : Int
  hasNext : Bool
  hasPrev : Bool
deriving DecidableEq

/-- PaginatedResponse from src/src/utils/query_builder.go. -/
structure PaginatedResponse (α : Type) where
  data : List α
  pagination : PaginationMeta

/-- ExtractPaginationParams from src/src/utils/query_builder.go: parse
page (default 1) and page_size (default 10) with errors ignored, raise
page below 1 to 1, replace page_size below 1 by the default 10, cap
page_size at 100, and derive the offset. -/
def ExtractPaginationParams (req : Request) : PaginationParams :=
  let page := goAtoi (ctxDefaultQuery req "page" "1")
  let pageSize := goAtoi (ctxDefaultQuery req "page_size" "10")
  let page := if page < 1 then 1 else page
  let pageSize := if pageSize < 1 then 10 else pageSize
  let pageSize := if pageSize > 100 then 100 else pageSize
  { page := page, pageSize := pageSize, offset := (page - 1) * pageSize }

/-- Models int(math.Ceil(float64 total / float64 pageSize)) from the two
pagination functions.  For 0 ≤ total and 1 ≤ pageSize this integer
expression equals the exact ceiling of the quotient (proved below in
ceilDivInt_eq_ceil); float64 rounding is exact for every count within
the magnitudes an int64 row count reaches in practice. -/
def ceilDivInt (total pageSize : Int) : Int :=
  (total + pageSize - 1) / pageSize

/-- Paginate from src/src/utils/query_builder.go: count the rows, fetch
at most pageSize rows starting at offset (gorm Offset then Limit), and
compute the metadata.  The two store reads are modelled on the row list
the query denotes; a store error aborts with no response and is outside
this success-path model.  Note: this variant has no floor applied to
totalPages. -/
def Paginate {α : Type} (rows : List α) (params : PaginationParams) : PaginatedResponse α :=
  let total : Int := (rows.length : Int)
  let data := (rows.drop params.offset.toNat).take params.pageSize.toNat
  let totalPages := ceilDivInt total params.pageSize
  let hasNext := decide (params.page < totalPages)
  let hasPrev := decide (params.page > 1)
  { data := data,
    pagination := { currentPage := params.page, pageSize := params.pageSize,
                    totalPages := totalPages, totalRecords := total,
                    hasNext := hasNext, hasPrev := hasPrev } }

/-- PaginateWithQuery from src/src/utils/query_builder.go: as Paginate,
over the row list the already-filtered query denotes, and with
totalPages floored to 1 when the ceiling is 0. -/
def PaginateWithQuery {α : Type} (rows : List α) (params : PaginationParams) : PaginatedResponse α :=
  let total : Int := (rows.length : Int)
  let data := (rows.drop params.offset.toNat).take params.pageSize.toNat
  let totalPages := ceilDivInt total params.pageSize
  let totalPages := if totalPages = 0 then 1 else totalPages
  let hasNext := decide (params.page < totalPages)
  let hasPrev := decide (params.page > 1)
  { data := data,
    pagination := { currentPage := params.page, pageSize := params.pageSize,
                    totalPages := totalPages, totalRecords := total,
                    hasNext := hasNext, hasPrev := hasPrev } }

/-- The Item model from src/src/models/item.go restricted to the fields
the update handler touches: id, name, stock, price.  Go float64 price is
modelled as a rational; the handler only copies it, never computes with
it.  The timestamps are set by the persistence layer and are not read by
any claim. -/
structure Item where
  id : String
  name : String
  stock : Int
  price : ℚ
deriving DecidableEq

/-- The anonymous payload struct of UpdateItem in
src/src/controllers/item_controller.go: three optional (pointer) fields,
so an absent field is distinguishable from a zero value. -/
structure UpdatePayload where
  name : Option String
  stock : Option Int
  price : Option ℚ
deriving DecidableEq

/-- The outcome of gin ShouldBindJSON on the request body: a body that
does not parse into the payload struct, or the parsed payload. -/
inductive Body where
  | malformed
  | valid (p : UpdatePayload)
deriving DecidableEq

/-- The observable part of the JSON response a handler writes: the HTTP
status, the error message when the body is an error object, and the item
when the body is an item. -/
structure HttpResult where
  status : Nat
  errorMsg : Option String
  item : Option Item
deriving DecidableEq

/-- UpdateItem from src/src/controllers/item_controller.go, over a store
modelled as the list of stored items.  Order of operations as in the
source: First(id) runs before the body is parsed, so a missing id
answers 404 whatever the body holds and leaves the store unchanged; a
body that fails to bind answers 400 with no write; otherwise exactly the
payload fields that are present overwrite the loaded record and Save
replaces the record with that id.  The Save error path (500) is a store
failure outside this model. -/
def UpdateItem (store : List Item) (id : String) (body : Body) : HttpResult × List Item :=
  match store.find? (fun it => it.id == id) with
  | none => ({ status := 404, errorMsg := some "item not found", item := none }, store)
  | some item =>
    match body with
    | Body.malformed => ({ status := 400, errorMsg := some "invalid request body", item := none }, store)
    | Body.valid payload =>
      let item := { item with
        name := payload.name.getD item.name,
        stock := payload.stock.getD item.stock,
        price := payload.price.getD item.price }
      ({ status := 200, errorMsg := none, item := some item },
        store.map (fun it => if it.id == id then item else it))

/-- Modelled from the spec: the token bucket of golang.org/x/time/rate
(a library dependency, not part of src/) behind the limiter of the
in-process middleware — a single shared bucket whose capacity is the
burst size, refilled at the sustained rate, starting full.  Time is in
seconds; the claim only exercises requests at one instant, where no
refill occurs. -/
structure TokenBucket where
  capacity : Nat
  ratePerSec : Nat
  tokens : Nat
  lastTime : Nat
deriving DecidableEq

/-- Modelled from the spec: Allow() is a non-blocking check-and-
decrement — refill for the elapsed time, then admit and take one token
when a token is available, else reject immediately with no queuing or
waiting. -/
def TokenBucket.allow (b : TokenBucket) (now : Nat) : Bool × TokenBucket :=
  let refilled := min b.capacity (b.tokens + b.ratePerSec * (now - b.lastTime))
  if 1 ≤ refilled then
    (true, { b with tokens := refilled - 1, lastTime := now })
  else
    (false, { b with tokens := refilled, lastTime := now })

/-- Models rate.NewLimiter(r, burst) as constructed in the middleware of
src (the limiter starts with a full bucket). -/
def newLimiter (r burst : Nat) : TokenBucket :=
  { capacity := burst, ratePerSec := r, tokens := burst, lastTime := 0 }

/-- The per-request outcome names of the spec state machine. -/
inductive Decision where
  | ADMITTED
  | REJECTED_LIMIT
  | REJECTED_ERROR
deriving DecidableEq

/-- What the in-process middleware makes observable for one request:
the decision, the status it wrote (none when the request proceeded to
the handler), and whether the handler ran. -/
structure MWResponse where
  decision : Decision
  status : Option Nat
  handlerInvoked : Bool
deriving DecidableEq

/-- The RateLimiter middleware of the in-process variant (rate_limiter
middleware source in src): when Allow() fails, write 429 and abort so
the handler never runs, otherwise pass the request on. -/
def RateLimiter (b : TokenBucket) (now : Nat) : MWResponse × TokenBucket :=
  match b.allow now with
  | (true, b2) => ({ decision := Decision.ADMITTED, status := none, handlerInvoked := true }, b2)
  | (false, b2) => ({ decision := Decision.REJECTED_LIMIT, status := some 429, handlerInvoked := false }, b2)

/-- A sequence of requests through the shared limiter, at the given
instants, collecting each response. -/
def runRequests (b : TokenBucket) (times : List Nat) : List MWResponse × TokenBucket :=
  match times with
  | [] => ([], b)
  | t :: rest =>
    let (r, b2) := RateLimiter b t
    let (rs, b3) := runRequests b2 rest
    (r :: rs, b3)

/-- The fields of a redis_rate allow result the middleware reads. -/
structure RedisAllowResult where
  allowed : Nat
  remaining : Nat
  retryAfterSeconds : Nat
deriving DecidableEq

/-- One call to the external limiter backend: a communication failure,
or a result. -/
inductive RedisBackend where
  | failure
  | ok (r : RedisAllowResult)
deriving DecidableEq

/-- What the distributed-limiter middleware makes observable for one
request. -/
structure RedisResponse where
  decision : Decision
  status : Option Nat
  headers : List (String × String)
  errorMsg : Option String
  handlerInvoked : Bool
deriving DecidableEq

/-- The RedisRateLimiter middleware (redis rate limiter source in src):
a backend error answers 500 with the rate-limiter-error message and
aborts before any header is set; otherwise the X-RateLimit headers are
set, and a result with no allowance answers 429 with a Retry-After
header and the too-many-requests message and aborts; otherwise the
request proceeds to the handler.  resetUnix models the reset timestamp
taken from the clock. -/
def RedisRateLimiter (requestsPerSecond burst : Nat) (resetUnix : Nat)
    (backend : RedisBackend) : RedisResponse :=
  match backend with
  | RedisBackend.failure =>
    { decision := Decision.REJECTED_ERROR, status := some 500, headers := [],
      errorMsg := some "rate limiter error", handlerInvoked := false }
  | RedisBackend.ok r =>
    let headers := [("X-RateLimit-Limit", toString requestsPerSecond),
                    ("X-RateLimit-Remaining", toString r.remaining),
                    ("X-RateLimit-Reset", toString resetUnix)]
    if r.allowed = 0 then
      { decision := Decision.REJECTED_LIMIT, status := some 429,
        headers := headers ++ [("Retry-After", toString r.retryAfterSeconds)],
        errorMsg := some "too many requests", handlerInvoked := false }
    else
      { decision := Decision.ADMITTED, status := none, headers := headers,
        errorMsg := none, handlerInvoked := true }

/-! Supporting lemmas. -/

/-- For a positive page size the integer expression used by the two
pagination functions is exactly the ceiling of the rational quotient. -/
lemma ceilDivInt_eq_ceil (t ps : Int) (h : 0 < ps) :
    ceilDivInt t ps = ⌈(t : ℚ) / (ps : ℚ)⌉ := by
  unfold ceilDivInt
  rw [eq_comm, Int.ceil_eq_iff]
  have hps : (0 : ℚ) < (ps : ℚ) := by exact_mod_cast h
  have hlo : ((t + ps - 1) / ps) * ps ≤ t + ps - 1 := Int.ediv_mul_le _ (by omega)
  have hhi : t + ps - 1 < ((t + ps - 1) / ps + 1) * ps :=
    Int.lt_ediv_add_one_mul_self (t + ps - 1) h
  constructor
  · rw [lt_div_iff₀ hps]
    have key : (((t + ps - 1) / ps) - 1) * ps < t := by nlinarith
    exact_mod_cast key
  · rw [div_le_iff₀ hps]
    have key : t ≤ ((t + ps - 1) / ps) * ps := by nlinarith
    exact_mod_cast key

lemma ceilDivInt_nonneg (t ps : Int) (ht : 0 ≤ t) (hps : 1 ≤ ps) :
    0 ≤ ceilDivInt t ps :=
  Int.ediv_nonneg (by omega) (by omega)

lemma one_le_ceilDivInt (t ps : Int) (ht : 1 ≤ t) (hps : 1 ≤ ps) :
    1 ≤ ceilDivInt t ps :=
  (Int.le_ediv_iff_mul_le (by omega)).mpr (by omega)

/-- The metadata Paginate computes, written out. -/
lemma paginate_pagination {α : Type} (rows : List α) (p : PaginationParams) :
    (Paginate rows p).pagination =
      { currentPage := p.page, pageSize := p.pageSize,
        totalPages := ceilDivInt (rows.length : Int) p.pageSize,
        totalRecords := (rows.length : Int),
        hasNext := decide (p.page < ceilDivInt (rows.length : Int) p.pageSize),
        hasPrev := decide (p.page > 1) } := rfl

/-- The metadata PaginateWithQuery computes, written out. -/
lemma paginateWithQuery_pagination {α : Type} (rows : List α) (p : PaginationParams) :
    (PaginateWithQuery rows p).pagination =
      { currentPage := p.page, pageSize := p.pageSize,
        totalPages := if ceilDivInt (rows.length : Int) p.pageSize = 0 then 1
          else ceilDivInt (rows.length : Int) p.pageSize,
        totalRecords := (rows.length : Int),
        hasNext := decide (p.page < (if ceilDivInt (rows.length : Int) p.pageSize = 0 then 1
          else ceilDivInt (rows.length : Int) p.pageSize)),
        hasPrev := decide (p.page > 1) } := rfl

/-- The single clause ApplySorting appends, written out. -/
lemma applySorting_eq (config : SortConfig) (req : Request) (orders : List String) :
    ApplySorting config req orders = orders ++
      [(if !(config.allowedFields.contains (ctxDefaultQuery req "sort_by" config.defaultField))
          then config.defaultField else ctxDefaultQuery req "sort_by" config.defaultField)
        ++ " " ++
        (if ctxDefaultQuery req "order" config.defaultOrder ≠ "asc" ∧
            ctxDefaultQuery req "order" config.defaultOrder ≠ "desc"
          then config.defaultOrder else ctxDefaultQuery req "order" config.defaultOrder)] := rfl

/-! Claim theorems. -/

/-- C1 (amended): for a zero count of matching records and a valid page
and page size, PaginateWithQuery reports totalPages = 1 (not 0) and
hasNext = false; hasPrev however is the comparison page > 1, so it is
false exactly on the first page and true on every later page. -/
theorem paginateWithQuery_zeroTotal_meta {α : Type} (rows : List α)
    (page ps off : Int) (hrows : rows.length = 0)
    (hpage : 1 ≤ page) (hps : 1 ≤ ps) (hps2 : ps ≤ 100) :
    (PaginateWithQuery rows ⟨page, ps, off⟩).pagination.totalPages = 1 ∧
    (PaginateWithQuery rows ⟨page, ps, off⟩).pagination.hasNext = false ∧
    (PaginateWithQuery rows ⟨page, ps, off⟩).pagination.hasPrev = decide (1 < page) := by
  have h0 : rows = [] := List.length_eq_zero.mp hrows
  subst h0
  have hceil : ceilDivInt (0 : Int) ps = 0 := by
    unfold ceilDivInt
    exact Int.ediv_eq_zero_of_lt (by omega) (by omega)
  rw [paginateWithQuery_pagination]
  refine ⟨?_, ?_, rfl⟩
  · simp [hceil]
  · have hlt : ¬ (page < 1) := by omega
    simp [hceil, hlt]

/-- C1 counterexample: at the valid request page = 2, pageSize = 10 with
zero matching records, PaginateWithQuery reports hasPrev = true, not
false as the claim states. -/
theorem paginateWithQuery_zeroTotal_cex :
    ((1 : Int) ≤ 2 ∧ (1 : Int) ≤ 10 ∧ (10 : Int) ≤ 100) ∧
    (PaginateWithQuery ([] : List Unit) ⟨2, 10, 10⟩).pagination.hasPrev = true := by
  decide

theorem paginateWithQuery_zeroTotal_meta_witness :
    (PaginateWithQuery ([] : List Unit) ⟨3, 10, 20⟩).pagination.totalPages = 1 ∧
    (PaginateWithQuery ([] : List Unit) ⟨3, 10, 20⟩).pagination.hasNext = false ∧
    (PaginateWithQuery ([] : List Unit) ⟨3, 10, 20⟩).pagination.hasPrev = decide ((1 : Int) < 3) :=
  paginateWithQuery_zeroTotal_meta ([] : List Unit) 3 10 20 rfl (by decide) (by decide) (by decide)

/-- C2 (amended): for any record count and pageSize in 1..100,
PaginateWithQuery reports totalPages = max 1 (ceil of records / pageSize);
Paginate reports the bare ceiling with no floor, which agrees with the
max formula only when at least one record matches; and the integer
ceiling expression is the exact ceiling of the rational quotient. -/
theorem totalPages_formula {α : Type} (rows : List α)
    (page ps off : Int) (hps : 1 ≤ ps) (hps2 : ps ≤ 100) :
    (PaginateWithQuery rows ⟨page, ps, off⟩).pagination.totalPages
      = max 1 (ceilDivInt (rows.length : Int) ps) ∧
    (Paginate rows ⟨page, ps, off⟩).pagination.totalPages
      = ceilDivInt (rows.length : Int) ps ∧
    (1 ≤ (rows.length : Int) →
      (Paginate rows ⟨page, ps, off⟩).pagination.totalPages
        = max 1 (ceilDivInt (rows.length : Int) ps)) ∧
    ceilDivInt (rows.length : Int) ps = ⌈((rows.length : Int) : ℚ) / (ps : ℚ)⌉ := by
  have h0 : (0 : Int) ≤ (rows.length : Int) := Int.ofNat_nonneg _
  have hnn : 0 ≤ ceilDivInt (rows.length : Int) ps := ceilDivInt_nonneg _ ps h0 hps
  refine ⟨?_, rfl, ?_, ceilDivInt_eq_ceil _ _ (by omega)⟩
  · show (if ceilDivInt ((rows.length : Int)) ps = 0 then 1
        else ceilDivInt ((rows.length : Int)) ps) = max 1 (ceilDivInt ((rows.length : Int)) ps)
    rcases eq_or_ne (ceilDivInt ((rows.length : Int)) ps) 0 with h | h
    · rw [h]
      simp
    · rw [if_neg h]
      exact (max_eq_right (by omega)).symm
  · intro h1
    have hone := one_le_ceilDivInt (rows.length : Int) ps h1 hps
    show ceilDivInt ((rows.length : Int)) ps = max 1 (ceilDivInt ((rows.length : Int)) ps)
    exact (max_eq_right hone).symm

/-- C2 counterexample: with zero records and pageSize = 10, Paginate
reports totalPages = 0, not max 1 (ceil of 0 / 10) = 1. -/
theorem paginate_totalPages_cex :
    ¬ ((Paginate ([] : List Unit) ⟨1, 10, 0⟩).pagination.totalPages
        = max 1 (ceilDivInt ((([] : List Unit).length : Int)) 10)) := by
  decide

theorem totalPages_formula_witness :
    (PaginateWithQuery (List.replicate 3 ()) ⟨1, 10, 0⟩).pagination.totalPages
      = max 1 (ceilDivInt ((List.replicate 3 ()).length : Int) 10) ∧
    (Paginate (List.replicate 3 ()) ⟨1, 10, 0⟩).pagination.totalPages
      = ceilDivInt ((List.replicate 3 ()).length : Int) 10 ∧
    (Paginate (List.replicate 3 ()) ⟨1, 10, 0⟩).pagination.totalPages
      = max 1 (ceilDivInt ((List.replicate 3 ()).length : Int) 10) ∧
    ceilDivInt ((List.replicate 3 ()).length : Int) 10
      = ⌈(((List.replicate 3 ()).length : Int) : ℚ) / ((10 : Int) : ℚ)⌉ := by
  have h := totalPages_formula (List.replicate 3 ()) 1 10 0 (by decide) (by decide)
  exact ⟨h.1, h.2.1, h.2.2.1 (by decide), h.2.2.2⟩

/-- C3: the ILIKE branch of ApplyFilter emits LOWER(column) LIKE with
the raw parameter value, lowering only the column side.  At the request
parameter MOUSE and a row whose name column holds Wireless Mouse, the
emitted condition evaluates to false although a case-insensitive
substring match of both sides, which the spec and the ILIKE operator
name promise, is true. -/
theorem ilike_lowercases_only_column :
    ApplyFilter { queryParam := "name", dbColumn := "name", operator := "ILIKE" }
        [("name", "MOUSE")] [] = [Cond.ilike "name" "MOUSE"] ∧
    evalCond (fun _ _ => Ordering.eq)
        (fun c => if c = "name" then "Wireless Mouse" else "")
        (Cond.ilike "name" "MOUSE") = false ∧
    specCaseInsensitiveContains "Wireless Mouse" "MOUSE" = true := by
  decide

/-- C4: UpdateItem with a parsed body overwrites exactly the payload
fields that are present, every absent field keeps its prior value, the
stored record with the target id is replaced by that updated record and
every other record is untouched; and when no record matches the id the
handler answers 404 with the item-not-found error before any write, the
store unchanged. -/
theorem updateItem_partial_update :
    (∀ (store : List Item) (i : String) (p : UpdatePayload) (item0 : Item),
      store.find? (fun it => it.id == i) = some item0 →
        (UpdateItem store i (Body.valid p)).1.status = 200 ∧
        (UpdateItem store i (Body.valid p)).1.item =
          some { id := item0.id, name := p.name.getD item0.name,
                 stock := p.stock.getD item0.stock, price := p.price.getD item0.price } ∧
        (UpdateItem store i (Body.valid p)).2 =
          store.map (fun it =>
            if it.id == i then
              { id := item0.id, name := p.name.getD item0.name,
                stock := p.stock.getD item0.stock, price := p.price.getD item0.price }
            else it)) ∧
    (∀ (store : List Item) (i : String) (b : Body),
      store.find? (fun it => it.id == i) = none →
        UpdateItem store i b
          = ({ status := 404, errorMsg := some "item not found", item := none }, store)) := by
  constructor
  · intro store i p item0 h
    unfold UpdateItem
    rw [h]
    exact ⟨rfl, rfl, rfl⟩
  · intro store i b h
    unfold UpdateItem
    rw [h]

theorem updateItem_partial_update_witness :
    ((UpdateItem [{ id := "a", name := "Widget", stock := 5, price := 2 }] "a"
        (Body.valid { name := none, stock := some 9, price := none })).1.status = 200 ∧
      (UpdateItem [{ id := "a", name := "Widget", stock := 5, price := 2 }] "a"
        (Body.valid { name := none, stock := some 9, price := none })).1.item =
        some { id := "a", name := (none : Option String).getD "Widget",
               stock := (some (9 : Int)).getD 5, price := (none : Option ℚ).getD 2 } ∧
      (UpdateItem [{ id := "a", name := "Widget", stock := 5, price := 2 }] "a"
        (Body.valid { name := none, stock := some 9, price := none })).2 =
        [{ id := "a", name := "Widget", stock := 5, price := 2 }].map (fun it =>
          if it.id == "a" then
            { id := "a", name := (none : Option String).getD "Widget",
              stock := (some (9 : Int)).getD 5, price := (none : Option ℚ).getD 2 }
          else it)) ∧
    UpdateItem [] "x" Body.malformed
      = ({ status := 404, errorMsg := some "item not found", item := none }, []) :=
  ⟨updateItem_partial_update.1 [{ id := "a", name := "Widget", stock := 5, price := 2 }] "a"
      { name := none, stock := some 9, price := none }
      { id := "a", name := "Widget", stock := 5, price := 2 } (by decide),
   updateItem_partial_update.2 [] "x" Body.malformed rfl⟩

/-- C5: through the in-process token-bucket middleware with burst 5 and
rate 1 per second, six requests at the same instant produce exactly five
ADMITTED responses followed by one REJECTED_LIMIT response; the rejected
request is answered 429 and its handler is not invoked.  Allow is a pure
check-and-decrement in the model, with no queue and no wait. -/
theorem tokenBucket_six_immediate_requests :
    (runRequests (newLimiter 1 5) [0, 0, 0, 0, 0, 0]).1 =
      List.replicate 5 { decision := Decision.ADMITTED, status := none, handlerInvoked := true } ++
        [{ decision := Decision.REJECTED_LIMIT, status := some 429, handlerInvoked := false }] ∧
    ((runRequests (newLimiter 1 5) [0, 0, 0, 0, 0, 0]).1.filter
        (fun r => r.decision == Decision.ADMITTED)).length = 5 ∧
    ((runRequests (newLimiter 1 5) [0, 0, 0, 0, 0, 0]).1.filter
        (fun r => r.decision == Decision.REJECTED_LIMIT)).length = 1 := by
  decide

/-- C6: the distributed limiter answers a backend communication failure
with REJECTED_ERROR, status 500, handler not invoked — never a silent
admit and never a silent drop — and answers an exhausted allowance with
REJECTED_LIMIT, status 429, Retry-After and X-RateLimit-Limit headers,
handler not invoked; a request with allowance proceeds to the handler
with no status written by the limiter. -/
theorem redisRateLimiter_outcomes (rps burst reset : Nat) (r : RedisAllowResult) :
    ((RedisRateLimiter rps burst reset RedisBackend.failure).status = some 500 ∧
     (RedisRateLimiter rps burst reset RedisBackend.failure).decision = Decision.REJECTED_ERROR ∧
     (RedisRateLimiter rps burst reset RedisBackend.failure).handlerInvoked = false) ∧
    (r.allowed = 0 →
      (RedisRateLimiter rps burst reset (RedisBackend.ok r)).status = some 429 ∧
      (RedisRateLimiter rps burst reset (RedisBackend.ok r)).decision = Decision.REJECTED_LIMIT ∧
      (RedisRateLimiter rps burst reset (RedisBackend.ok r)).handlerInvoked = false ∧
      ("Retry-After", toString r.retryAfterSeconds)
        ∈ (RedisRateLimiter rps burst reset (RedisBackend.ok r)).headers ∧
      ("X-RateLimit-Limit", toString rps)
        ∈ (RedisRateLimiter rps burst reset (RedisBackend.ok r)).headers) ∧
    (r.allowed ≠ 0 →
      (RedisRateLimiter rps burst reset (RedisBackend.ok r)).status = none ∧
      (RedisRateLimiter rps burst reset (RedisBackend.ok r)).decision = Decision.ADMITTED ∧
      (RedisRateLimiter rps burst reset (RedisBackend.ok r)).handlerInvoked = true) := by
  refine ⟨⟨rfl, rfl, rfl⟩, ?_, ?_⟩ <;> intro h <;> simp [RedisRateLimiter, h]

theorem redisRateLimiter_outcomes_witness :
    ((RedisRateLimiter 1 5 0 (RedisBackend.ok ⟨0, 0, 1⟩)).status = some 429 ∧
     (RedisRateLimiter 1 5 0 (RedisBackend.ok ⟨0, 0, 1⟩)).decision = Decision.REJECTED_LIMIT ∧
     (RedisRateLimiter 1 5 0 (RedisBackend.ok ⟨0, 0, 1⟩)).handlerInvoked = false ∧
     ("Retry-After", toString (1 : Nat))
       ∈ (RedisRateLimiter 1 5 0 (RedisBackend.ok ⟨0, 0, 1⟩)).headers ∧
     ("X-RateLimit-Limit", toString (1 : Nat))
       ∈ (RedisRateLimiter 1 5 0 (RedisBackend.ok ⟨0, 0, 1⟩)).headers) ∧
    ((RedisRateLimiter 1 5 0 (RedisBackend.ok ⟨1, 4, 0⟩)).status = none ∧
     (RedisRateLimiter 1 5 0 (RedisBackend.ok ⟨1, 4, 0⟩)).decision = Decision.ADMITTED ∧
     (RedisRateLimiter 1 5 0 (RedisBackend.ok ⟨1, 4, 0⟩)).handlerInvoked = true) :=
  ⟨(redisRateLimiter_outcomes 1 5 0 ⟨0, 0, 1⟩).2.1 rfl,
   (redisRateLimiter_outcomes 1 5 0 ⟨1, 4, 0⟩).2.2 (by decide)⟩

/-- C7: ApplySorting appends exactly one sort clause and never errors;
the field of the clause is always a member of the allowed fields or the
default field, a sort_by outside the allowed fields is replaced by the
default field, and an order other than asc and desc is replaced by the
default order. -/
theorem applySorting_whitelisted (config : SortConfig) (req : Request) (orders : List String) :
    ∃ f o, ApplySorting config req orders = orders ++ [f ++ " " ++ o] ∧
      (config.allowedFields.contains f = true ∨ f = config.defaultField) ∧
      (o = "asc" ∨ o = "desc" ∨ o = config.defaultOrder) ∧
      (config.allowedFields.contains (ctxDefaultQuery req "sort_by" config.defaultField) = false →
        f = config.defaultField) ∧
      (ctxDefaultQuery req "order" config.defaultOrder ≠ "asc" →
        ctxDefaultQuery req "order" config.defaultOrder ≠ "desc" →
        o = config.defaultOrder) := by
  refine ⟨_, _, applySorting_eq config req orders, ?_, ?_, ?_, ?_⟩
  · by_cases h : config.allowedFields.contains (ctxDefaultQuery req "sort_by" config.defaultField) = true
    · left
      rw [h]
      simpa using h
    · right
      rw [Bool.not_eq_true] at h
      rw [h]
      simp
  · by_cases h : ctxDefaultQuery req "order" config.defaultOrder ≠ "asc" ∧
        ctxDefaultQuery req "order" config.defaultOrder ≠ "desc"
    · right; right
      rw [if_pos h]
    · rw [not_and_or, not_not, not_not] at h
      rcases h with h | h
      · left
        simp [h]
      · right; left
        simp [h]
  · intro h
    rw [h]
    simp
  · intro h1 h2
    rw [if_pos ⟨h1, h2⟩]

theorem applySorting_whitelisted_witness :
    ∃ f o, ApplySorting ⟨["name", "stock", "price", "created_at"], "created_at", "desc"⟩
        [("sort_by", "drop_table"), ("order", "UP")] [] = [] ++ [f ++ " " ++ o] ∧
      (["name", "stock", "price", "created_at"].contains f = true ∨ f = "created_at") ∧
      (o = "asc" ∨ o = "desc" ∨ o = "desc") ∧
      (["name", "stock", "price", "created_at"].contains
          (ctxDefaultQuery [("sort_by", "drop_table"), ("order", "UP")] "sort_by" "created_at")
            = false → f = "created_at") ∧
      (ctxDefaultQuery [("sort_by", "drop_table"), ("order", "UP")] "order" "desc" ≠ "asc" →
        ctxDefaultQuery [("sort_by", "drop_table"), ("order", "UP")] "order" "desc" ≠ "desc" →
        o = "desc") :=
  applySorting_whitelisted ⟨["name", "stock", "price", "created_at"], "created_at", "desc"⟩
    [("sort_by", "drop_table"), ("order", "UP")] []

/-- C8: a filter whose request parameter is absent or empty adds no
condition (gin returns the empty string in both cases), so the
GET /inventory condition list with an empty name parameter equals the
one with no name parameter, and the result sets agree on every store
and every comparison semantics. -/
theorem applyFilter_empty_is_identity :
    (∀ (config : FilterConfig) (req : Request) (conds : List Cond),
      ctxQuery req config.queryParam = "" → ApplyFilter config req conds = conds) ∧
    (∀ (cmp : String → String → Ordering) (rows : List Row),
      GetItemsConds [("name", "")] = GetItemsConds [] ∧
      resultSet cmp rows (GetItemsConds [("name", "")]) =
        resultSet cmp rows (GetItemsConds [])) := by
  constructor
  · intro config req conds h
    simp [ApplyFilter, h]
  · intro cmp rows
    exact ⟨rfl, rfl⟩

theorem applyFilter_empty_is_identity_witness :
    ApplyFilter { queryParam := "name", dbColumn := "name", operator := "ILIKE" }
      [("name", "")] [Cond.eq "stock" "5"] = [Cond.eq "stock" "5"] :=
  applyFilter_empty_is_identity.1
    { queryParam := "name", dbColumn := "name", operator := "ILIKE" }
    [("name", "")] [Cond.eq "stock" "5"] rfl

/-- C9: for every request, the extracted pagination parameters satisfy
page at least 1 (default 1), pageSize between 1 and 100 (default 10) and
offset = (page - 1) * pageSize, and the data fetch of the pagination
engine returns at most pageSize rows. -/
theorem extractPaginationParams_bounds {α : Type} (req : Request) (rows : List α) :
    1 ≤ (ExtractPaginationParams req).page ∧
    1 ≤ (ExtractPaginationParams req).pageSize ∧
    (ExtractPaginationParams req).pageSize ≤ 100 ∧
    (ExtractPaginationParams req).offset =
      ((ExtractPaginationParams req).page - 1) * (ExtractPaginationParams req).pageSize ∧
    ((PaginateWithQuery rows (ExtractPaginationParams req)).data.length : Int) ≤
      (ExtractPaginationParams req).pageSize ∧
    (ExtractPaginationParams []).page = 1 ∧
    (ExtractPaginationParams []).pageSize = 10 := by
  have hpage : 1 ≤ (ExtractPaginationParams req).page := by
    unfold ExtractPaginationParams
    dsimp only
    split <;> omega
  have hps : 1 ≤ (ExtractPaginationParams req).pageSize ∧
      (ExtractPaginationParams req).pageSize ≤ 100 := by
    unfold ExtractPaginationParams
    dsimp only
    constructor <;> (split <;> (try split) <;> omega)
  refine ⟨hpage, hps.1, hps.2, rfl, ?_, by decide, by decide⟩
  have hdata : (PaginateWithQuery rows (ExtractPaginationParams req)).data =
      (rows.drop (ExtractPaginationParams req).offset.toNat).take
        (ExtractPaginationParams req).pageSize.toNat := rfl
  rw [hdata]
  have hlen : ((rows.drop (ExtractPaginationParams req).offset.toNat).take
      (ExtractPaginationParams req).pageSize.toNat).length ≤
      (ExtractPaginationParams req).pageSize.toNat :=
    List.length_take_le _ _
  have := Int.ofNat_le.mpr hlen
  have htn : ((ExtractPaginationParams req).pageSize.toNat : Int) =
      (ExtractPaginationParams req).pageSize := Int.toNat_of_nonneg (by omega)
  omega

/-- C10: a PUT on an id with no matching record answers 404 with the
item-not-found error whatever the body holds — the lookup runs before
the body is parsed, so even a malformed body yields 404, not 400 — and
the store is unchanged. -/
theorem updateItem_notFound_regardless_of_body
    (store : List Item) (i : String) (b : Body)
    (h : store.find? (fun it => it.id == i) = none) :
    UpdateItem store i b
      = ({ status := 404, errorMsg := some "item not found", item := none }, store) := by
  unfold UpdateItem
  rw [h]

theorem updateItem_notFound_regardless_of_body_witness :
    UpdateItem [{ id := "a", name := "Widget", stock := 5, price := 2 }] "zzz" Body.malformed
      = ({ status := 404, errorMsg := some "item not found", item := none },
         [{ id := "a", name := "Widget", stock := 5, price := 2 }]) :=
  updateItem_notFound_regardless_of_body
    [{ id := "a", name := "Widget", stock := 5, price := 2 }] "zzz" Body.malformed (by decide)

end InventoryService
